import Mathlib

/-!
Verification development for the federated media directory search engine
(radio-station and podcast search orchestrators, deduper, ranker,
rate limiter, cache-key builders, index provider adapter and feed parser).

The TypeScript source is embedded shallowly:

- optional strings and numbers use the JavaScript falsiness convention
  observed by the code (the empty string and zero are falsy), so a
  TypeScript `a || b` on strings becomes `strOr a b` and on numbers
  `natOr a b`;
- fields whose code distinguishes `undefined` from a present value with
  the nullish operators (`??`, `?.`) are modelled with `Option`;
- a JavaScript `Map` (insertion-ordered, `set` overwrites in place) is
  an association list with `mapGet` / `mapSet` below;
- `Array.from(new Set xs)` (first-occurrence order, duplicates dropped)
  is `setFrom`;
- the stable ES2019 `Array.prototype.sort` is modelled by the stable
  `List.insertionSort` with the comparator translated to a boolean
  less-or-equal test;
- timestamps are naturals counting milliseconds.
-/

namespace GlobalRadios

/-- JavaScript `a || b` on strings: the empty string is falsy. -/
def strOr (a b : String) : String := if a = "" then b else a

/-- JavaScript `a || b` on numbers: zero (and a missing value modelled as
zero) is falsy. -/
def natOr (a b : Nat) : Nat := if a = 0 then b else a

/-- JavaScript `Array.from(new Set xs)`: keeps the first occurrence of
every element, in order. -/
def setFrom (xs : List String) : List String :=
  xs.foldl (fun acc x => if x ∈ acc then acc else acc ++ [x]) []

/-- JavaScript `toLowerCase`, written over the character list so that
closed instances reduce inside the kernel. -/
def jsToLower (s : String) : String :=
  String.mk (s.data.map Char.toLower)

/-- JavaScript `trim`: whitespace stripped from both ends. -/
def jsTrim (s : String) : String :=
  String.mk
    (((s.data.dropWhile (fun c => c.isWhitespace)).reverse.dropWhile
      (fun c => c.isWhitespace)).reverse)

/-- JavaScript `String.prototype.replace` with the pattern `\s+` and a
single-space replacement: every maximal run of whitespace becomes one
space. The boolean argument records whether the previous character
belonged to a whitespace run. -/
def collapseWsAux : List Char → Bool → List Char
  | [], _ => []
  | c :: rest, prevWs =>
    if c.isWhitespace then
      if prevWs then collapseWsAux rest true
      else ' ' :: collapseWsAux rest true
    else c :: collapseWsAux rest false

def collapseWs (s : String) : String :=
  String.mk (collapseWsAux s.data false)

/-- Lexicographic code-point less-or-equal on character lists:
the model of a `localeCompare` call returning a nonpositive number,
written structurally so that closed instances reduce in the kernel. -/
def jsStrLEChars : List Char → List Char → Bool
  | [], _ => true
  | _ :: _, [] => false
  | a :: as, b :: bs =>
    if a < b then true
    else if b < a then false
    else jsStrLEChars as bs

/-- The string comparison used by the rankers. -/
def jsStrLE (a b : String) : Bool := jsStrLEChars a.data b.data

/-- JavaScript association into a `Map`: lookup by key. -/
def mapGet {α : Type} (m : List (String × α)) (k : String) : Option α :=
  (m.find? (fun p => p.1 = k)).map Prod.snd

/-- JavaScript `Map.prototype.set`: overwrite in place when the key is
present (keeping its position), append otherwise. -/
def mapSet {α : Type} (m : List (String × α)) (k : String) (v : α) :
    List (String × α) :=
  if (m.find? (fun p => p.1 = k)).isSome then
    m.map (fun p => if p.1 = k then (k, v) else p)
  else m ++ [(k, v)]


/-!
Podcast search manager (`podcast-search.manager.ts`). The canonical
podcast candidate record: string fields that the code tests only with
`||` are plain strings with the empty string for a missing value;
`explicit` is merged with `??` so it is a genuine tri-state
`Option Bool`; `sourceProviders` is stamped with
`item.sourceProviders || [providerName]` where an empty array is truthy,
so it must distinguish the missing array from the empty one. -/

structure ProviderPodcastResult where
  id : String := ""
  title : String := ""
  authorName : String := ""
  description : String := ""
  imageUrl : String := ""
  feedUrl : String := ""
  itunesId : String := ""
  categories : List String := []
  episodeCount : Nat := 0
  language : String := ""
  websiteUrl : String := ""
  source : String := ""
  sourceProviders : Option (List String) := none
  lastUpdated : String := ""
  popularity : Nat := 0
  explicit : Option Bool := none
  deriving Repr, DecidableEq

namespace PodcastSearchManager

/-- Source: normalizeTitleAuthor (podcast-search.manager.ts lines
166 to 169). Returns null when both fields are missing, otherwise the
lowercased, whitespace-collapsed, trimmed join of title and author. -/
def normalizeTitleAuthor (title author : String) : Option String :=
  if title = "" ∧ author = "" then none
  else some (jsTrim (collapseWs (jsToLower (title ++ ("-") ++ author))))

/-- Source: mergePodcast (podcast-search.manager.ts lines 117 to 143).
Field by field translation of the object literal. -/
def mergePodcast (target incoming : ProviderPodcastResult) :
    ProviderPodcastResult :=
  { target with
    title := strOr target.title incoming.title
    description :=
      if incoming.description ≠ "" ∧
          (target.description = "" ∨
            target.description.length < incoming.description.length) then
        incoming.description
      else target.description
    imageUrl := strOr target.imageUrl incoming.imageUrl
    authorName := strOr target.authorName incoming.authorName
    feedUrl := strOr target.feedUrl incoming.feedUrl
    itunesId := strOr target.itunesId incoming.itunesId
    categories := setFrom (target.categories ++ incoming.categories)
    episodeCount := natOr target.episodeCount incoming.episodeCount
    language := strOr target.language incoming.language
    websiteUrl := strOr target.websiteUrl incoming.websiteUrl
    source := target.source
    sourceProviders :=
      some (setFrom (target.sourceProviders.getD [] ++
        incoming.sourceProviders.getD [] ++ [incoming.source]))
    lastUpdated := strOr target.lastUpdated incoming.lastUpdated
    popularity := natOr target.popularity incoming.popularity
    explicit := target.explicit.or incoming.explicit }

/-- Stamp applied on first insertion into the dedup map
(podcast-search.manager.ts lines 107 to 110). -/
def stampSourceProviders (item : ProviderPodcastResult) :
    ProviderPodcastResult :=
  { item with
    sourceProviders :=
      some (setFrom (item.sourceProviders.getD [] ++ [item.source])) }

/-- One iteration of the dedup loop (podcast-search.manager.ts lines
96 to 112). Each candidate is looked up under its lowercased feed URL,
then its iTunes id, then the title-author fallback; the merged or fresh
record is stored under the FIRST present key only. -/
def dedupStep (m : List (String × ProviderPodcastResult))
    (item : ProviderPodcastResult) :
    List (String × ProviderPodcastResult) :=
  let feedKey := jsToLower item.feedUrl
  let itunesKey := item.itunesId
  let fallbackKey := normalizeTitleAuthor item.title item.authorName
  let e1 := if feedKey ≠ "" then mapGet m feedKey else none
  let e2 := if itunesKey ≠ "" then mapGet m itunesKey else none
  let e3 := match fallbackKey with
    | some k => mapGet m k
    | none => none
  match e1.or (e2.or e3) with
  | some existing =>
    let key := if feedKey ≠ "" then feedKey
      else if itunesKey ≠ "" then itunesKey
      else fallbackKey.getD ("")
    mapSet m key (mergePodcast existing item)
  | none =>
    let key := if feedKey ≠ "" then feedKey
      else if itunesKey ≠ "" then itunesKey
      else match fallbackKey with
        | some k => k
        | none => item.title ++ ("-") ++ item.source
    mapSet m key (stampSourceProviders item)

/-- Source: deduplicateResults (podcast-search.manager.ts lines 93
to 115). -/
def deduplicateResults (results : List ProviderPodcastResult) :
    List ProviderPodcastResult :=
  ((results.foldl dedupStep []).map Prod.snd)

/-- Priority lookup inside the comparator:
`priorityMap[a.source] || 99` (a missing entry and a zero priority both
fall back to 99). The map itself is built by buildPriorityMap from the
provider configuration, which we take as a parameter. -/
def priorityOf (pm : List (String × Nat)) (s : String) : Nat :=
  match mapGet pm s with
  | some p => natOr p 99
  | none => 99

/-- Three-key comparator shape shared by both managers: first key
ascending, second key descending, third key (the display string)
ascending; `a` may precede `b` iff the JavaScript comparator returns a
nonpositive number. -/
def key3LE {α : Type} (f g : α → Nat) (t : α → String) (a b : α) :
    Bool :=
  if f a ≠ f b then decide (f a < f b)
  else if g a ≠ g b then decide (g b < g a)
  else jsStrLE (t a) (t b)

/-- The comparator of sortResultsByPriority (podcast-search.manager.ts
lines 148 to 154) as a boolean total preorder: provider priority of the
surviving source ascending, then popularity descending, then title
ascending. `localeCompare` is modelled by the code-point order on
strings. -/
def podcastLE (pm : List (String × Nat))
    (a b : ProviderPodcastResult) : Bool :=
  key3LE (fun r => priorityOf pm r.source) (fun r => r.popularity)
    (fun r => r.title) a b

/-- Source: sortResultsByPriority (podcast-search.manager.ts lines 145
to 155); the stable ES2019 sort is modelled by insertion sort. -/
def sortResultsByPriority (pm : List (String × Nat))
    (results : List ProviderPodcastResult) :
    List ProviderPodcastResult :=
  List.insertionSort (fun a b => podcastLE pm a b = true) results

/-- Source: buildCacheKey (podcast-search.manager.ts lines 171 to 174).
The provider CSV is sorted with the default JavaScript string sort. -/
def buildCacheKey (query : String) (language : Option String)
    (limit : Nat) (providers : Option (List String)) : String :=
  let providersKey := match providers with
    | some ps =>
      if ps ≠ [] then
        String.intercalate (",")
          (List.insertionSort (fun a b => jsStrLE a b = true) ps)
      else ("all")
    | none => ("all")
  ("podcasts:multi:") ++ query ++ (":") ++ strOr (language.getD ("")) ("any")
    ++ (":") ++ toString limit ++ (":") ++ providersKey

/-- Source: getBoundedLimit (podcast-search.manager.ts lines 176 to
181); the default and maximum come from configuration. -/
def getBoundedLimit (defaultLimit maxLimit : Nat) (limit : Nat) : Nat :=
  min (max (natOr limit defaultLimit) 1) maxLimit

/-- Provenance stamping of fulfilled provider results
(podcast-search.manager.ts lines 50 to 63): each settled entry is a
provider name together with either its returned list (fulfilled) or
nothing (rejected). -/
def collectResults
    (settled : List (String × Option (List ProviderPodcastResult))) :
    List ProviderPodcastResult :=
  (settled.map (fun pr =>
    match pr.2 with
    | some items =>
      items.map (fun item =>
        { item with
          sourceProviders := some (item.sourceProviders.getD [pr.1]) })
    | none => [])).flatten

/-- The post-collection pipeline of search (podcast-search.manager.ts
lines 65 to 72): dedup then sort. The bounded limit is passed to the
providers and the cache key only; the code applies no truncation. -/
def searchPipeline (pm : List (String × Nat)) (limit : Nat)
    (settled : List (String × Option (List ProviderPodcastResult))) :
    List ProviderPodcastResult :=
  let _ := limit
  sortResultsByPriority pm (deduplicateResults (collectResults settled))

end PodcastSearchManager

/-!
Radio search manager (`radio-search.manager.ts`). The station candidate
record follows the `ProviderRadioResult` interface; optional strings and
numbers again use the falsiness convention, and `sourceProviders`
distinguishes a missing array from an empty one as above. -/

structure ProviderRadioResult where
  id : String := ""
  name : String := ""
  streamUrl : String := ""
  country : String := ""
  countryCode : String := ""
  state : String := ""
  city : String := ""
  language : String := ""
  tags : List String := []
  bitrate : Nat := 0
  codec : String := ""
  homepage : String := ""
  favicon : String := ""
  votes : Nat := 0
  clickCount : Nat := 0
  source : String := ""
  sourceProviders : Option (List String) := none
  lastUpdated : String := ""
  deriving Repr, DecidableEq

namespace RadioSearchManager

/-- Trailing-slash strip, the `replace` with pattern made of a slash
repeated at the end of the string. -/
def stripTrailingSlashes (s : String) : String :=
  String.mk ((s.data.reverse.dropWhile (· = '/')).reverse)

/-- Split a character list at the first occurrence of a separator
sequence, returning the parts before and after it when it occurs. -/
def breakOnSeq (sep : List Char) : List Char →
    Option (List Char × List Char)
  | [] => none
  | c :: rest =>
    if sep.isPrefixOf (c :: rest) then
      some ([], (c :: rest).drop sep.length)
    else
      match breakOnSeq sep rest with
      | some (pre, post) => some (c :: pre, post)
      | none => none

/-- Source: normalizeStreamUrl (radio-search.manager.ts lines 170 to
178). The WHATWG URL parse is modelled to the extent the key needs:
`host` and `pathname` are the text between the scheme separator and the
first question mark or hash, lowercased, with trailing slashes removed;
a string without a scheme separator fails to parse and falls back to
lowercasing the raw URL. -/
def normalizeStreamUrl (url : String) : String :=
  match breakOnSeq [':', '/', '/'] url.data with
  | some (scheme, rest) =>
    if scheme ≠ [] ∧ rest ≠ [] then
      let hostPath :=
        (rest.takeWhile (fun c => c ≠ '?')).takeWhile (fun c => c ≠ '#')
      stripTrailingSlashes (String.mk (hostPath.map Char.toLower))
    else jsToLower url
  | none => jsToLower url

/-- Source: mergeStation (radio-search.manager.ts lines 113 to 141). -/
def mergeStation (target incoming : ProviderRadioResult) :
    ProviderRadioResult :=
  { target with
    name := strOr target.name incoming.name
    country := strOr target.country incoming.country
    countryCode := strOr target.countryCode incoming.countryCode
    state := strOr target.state incoming.state
    city := strOr target.city incoming.city
    language := strOr target.language incoming.language
    tags := setFrom (target.tags ++ incoming.tags)
    bitrate := natOr target.bitrate incoming.bitrate
    codec := strOr target.codec incoming.codec
    homepage := strOr target.homepage incoming.homepage
    favicon := strOr target.favicon incoming.favicon
    votes := target.votes + incoming.votes
    clickCount := target.clickCount + incoming.clickCount
    sourceProviders :=
      some (setFrom (target.sourceProviders.getD [] ++
        incoming.sourceProviders.getD [] ++ [incoming.source]))
    lastUpdated := strOr target.lastUpdated incoming.lastUpdated }

/-- Stamp applied on first insertion into the dedup map
(radio-search.manager.ts lines 103 to 106). -/
def stampSourceProviders (item : ProviderRadioResult) :
    ProviderRadioResult :=
  { item with
    sourceProviders :=
      some (setFrom (item.sourceProviders.getD [] ++ [item.source])) }

/-- One iteration of the dedup loop (radio-search.manager.ts lines 94
to 108): items with an empty stream URL are skipped, the rest are keyed
by the normalized stream URL. -/
def dedupStep (m : List (String × ProviderRadioResult))
    (item : ProviderRadioResult) :
    List (String × ProviderRadioResult) :=
  if item.streamUrl = "" then m
  else
    let streamKey := normalizeStreamUrl item.streamUrl
    match mapGet m streamKey with
    | some existing => mapSet m streamKey (mergeStation existing item)
    | none => mapSet m streamKey (stampSourceProviders item)

/-- Source: deduplicateResults (radio-search.manager.ts lines 91 to
111). -/
def deduplicateResults (results : List ProviderRadioResult) :
    List ProviderRadioResult :=
  ((results.foldl dedupStep []).map Prod.snd)

/-- The comparator of sortResultsByPriority (radio-search.manager.ts
lines 146 to 158) as a boolean total preorder: provider priority of the
surviving source ascending, then votes plus clicks descending, then
name ascending. -/
def radioLE (pm : List (String × Nat))
    (a b : ProviderRadioResult) : Bool :=
  PodcastSearchManager.key3LE
    (fun r => PodcastSearchManager.priorityOf pm r.source)
    (fun r => r.votes + r.clickCount) (fun r => r.name) a b

/-- Source: sortResultsByPriority (radio-search.manager.ts lines 143
to 159). -/
def sortResultsByPriority (pm : List (String × Nat))
    (results : List ProviderRadioResult) :
    List ProviderRadioResult :=
  List.insertionSort (fun a b => radioLE pm a b = true) results

/-- Source: buildCacheKey (radio-search.manager.ts lines 180 to 200):
the parts array joined with a colon. The provider CSV keeps the request
order, and the offset sits between the limit and the CSV. -/
def buildCacheKey (query country language tag : String)
    (limit offset : Nat) (providers : Option (List String)) : String :=
  String.intercalate (":")
    [("radio-search"), strOr query ("all"), strOr country ("any"),
      strOr language ("any"), strOr tag ("any"), toString limit,
      toString offset,
      match providers with
      | some ps => strOr (String.intercalate (",") ps) ("all")
      | none => ("all")]

/-- Source: getBoundedLimit (radio-search.manager.ts lines 202 to
205). -/
def getBoundedLimit (limit : Nat) : Nat :=
  min (max (natOr limit 20) 1) 100

/-- Provenance stamping of fulfilled provider results
(radio-search.manager.ts lines 59 to 73). -/
def collectResults
    (settled : List (String × Option (List ProviderRadioResult))) :
    List ProviderRadioResult :=
  (settled.map (fun pr =>
    match pr.2 with
    | some items =>
      items.map (fun item =>
        { item with
          sourceProviders := some (item.sourceProviders.getD [pr.1]) })
    | none => [])).flatten

/-- The post-collection pipeline of search (radio-search.manager.ts
lines 75 to 77): dedup, sort, then `slice(0, limit)`. -/
def searchPipeline (pm : List (String × Nat)) (limit : Nat)
    (settled : List (String × Option (List ProviderRadioResult))) :
    List ProviderRadioResult :=
  (sortResultsByPriority pm
    (deduplicateResults (collectResults settled))).take limit

end RadioSearchManager

/-!
Rate limiter (`rate-limiter.service.ts`). The backing cache holds, per
provider key, a counter with an absolute expiry instant; `get` at or
after the expiry is a miss (cache entries expire `ttlMillis` after the
set that wrote them). The private getRemainingTtl always answers null
(its body is a single `return null`), so getUsage always takes its
initialization branch, and getTtl always answers the full period. All
times are in milliseconds; the configured period is in seconds. -/

namespace RateLimiterService

structure RLEntry where
  value : Nat
  expiresAt : Nat
  deriving Repr, DecidableEq

/-- The cache state behind one provider key. -/
abbrev RLState := Option RLEntry

/-- `cacheManager.get` at instant `now`. -/
def rlGet (st : RLState) (now : Nat) : Option Nat :=
  match st with
  | some e => if now < e.expiresAt then some e.value else none
  | none => none

/-- Source: getUsage (rate-limiter.service.ts lines 59 to 74). Because
getRemainingTtl returns null, the code always re-sets the key with the
observed count and a fresh full-period TTL, and reports the full period
as the reset horizon. Returns the observed count and the new cache
state. -/
def getUsage (st : RLState) (now : Nat) (periodSeconds : Nat) :
    Nat × RLState :=
  let used := (rlGet st now).getD 0
  (used, some ⟨used, now + periodSeconds * 1000⟩)

/-- Source: canMakeRequest (rate-limiter.service.ts lines 19 to 31).
A missing or zero limit or period admits unconditionally without
touching the state. -/
def canMakeRequest (st : RLState) (now : Nat)
    (limit periodSeconds : Nat) : Bool × RLState :=
  if limit = 0 ∨ periodSeconds = 0 then (true, st)
  else
    let u := getUsage st now periodSeconds
    (decide (u.1 < limit), u.2)

/-- Source: recordRequest (rate-limiter.service.ts lines 33 to 43).
Reads the current count, then sets count plus one with a fresh
full-period TTL (getTtl always returns the default period). -/
def recordRequest (st : RLState) (now : Nat)
    (limit periodSeconds : Nat) : RLState :=
  if limit = 0 ∨ periodSeconds = 0 then st
  else
    let current := (rlGet st now).getD 0
    some ⟨current + 1, now + periodSeconds * 1000⟩

end RateLimiterService

/-!
Podcast Index provider adapter (`PodcastIndexProvider.search`). The
HTTP exchange is an oracle: either a response with a feeds array
arrives, or the request throws. The outcome records whether an upstream
request was issued and how many rate-limit units were recorded. -/

namespace PodcastIndexProvider

structure PIConfig where
  enabled : Bool := true
  apiKey : String := ""
  apiSecret : String := ""
  rateLimit : Nat := 0
  rateLimitPeriodSeconds : Nat := 0
  deriving Repr, DecidableEq

/-- A raw feed object of the `/search/byterm` response, limited to the
fields the mapping reads. -/
structure PIFeed where
  id : String := ""
  title : String := ""
  author : String := ""
  description : String := ""
  image : String := ""
  url : String := ""
  itunesId : String := ""
  categories : List String := []
  episodeCount : Nat := 0
  language : String := ""
  link : String := ""
  explicit : Nat := 0
  lastUpdateTime : String := ""
  deriving Repr, DecidableEq

inductive HttpOutcome where
  | ok (feeds : List PIFeed)
  | err
  deriving Repr, DecidableEq

/-- The field mapping of the response feeds
(the provider source, lines 67 to 82). -/
def mapFeed (feed : PIFeed) : ProviderPodcastResult :=
  { id := feed.id
    title := feed.title
    authorName := feed.author
    description := feed.description
    imageUrl := feed.image
    feedUrl := feed.url
    itunesId := feed.itunesId
    categories := feed.categories
    episodeCount := feed.episodeCount
    language := feed.language
    websiteUrl := feed.link
    source := ("podcast_index")
    explicit := some (feed.explicit = 1)
    lastUpdated := feed.lastUpdateTime }

structure SearchOutcome where
  results : List ProviderPodcastResult
  requestIssued : Bool
  recordedUnits : Nat
  rlState : RateLimiterService.RLState
  deriving Repr, DecidableEq

/-- Source: PodcastIndexProvider.search (lines 36 to 87 of the provider
source). Disabled config, empty query, or missing credentials
short-circuit to empty; a denied admission short-circuits to empty; an
issued request that throws is caught after zero recordRequest calls; an
issued request that answers is followed by exactly one recordRequest
and the field mapping. -/
def search (cfg : PIConfig) (query : String)
    (st : RateLimiterService.RLState) (now : Nat)
    (http : HttpOutcome) : SearchOutcome :=
  if ¬cfg.enabled then ⟨[], false, 0, st⟩
  else if query = "" then ⟨[], false, 0, st⟩
  else if cfg.apiKey = "" ∨ cfg.apiSecret = "" then ⟨[], false, 0, st⟩
  else
    let adm := RateLimiterService.canMakeRequest st now cfg.rateLimit
      cfg.rateLimitPeriodSeconds
    if ¬adm.1 then ⟨[], false, 0, adm.2⟩
    else
      match http with
      | .err => ⟨[], true, 0, adm.2⟩
      | .ok feeds =>
        let st2 := RateLimiterService.recordRequest adm.2 now
          cfg.rateLimit cfg.rateLimitPeriodSeconds
        ⟨feeds.map mapFeed, true, 1, st2⟩

end PodcastIndexProvider

/-!
Feed parser (`PodcastIndexService.fetchAndParseRssFeed`, episode
extraction of lines 134 to 145). Durations go through the JavaScript
`parseInt(s, 10) || null`: leading whitespace skipped, an optional
sign, then the longest digit prefix; no digits give NaN, and NaN and
zero are both falsy, so they yield null. -/

namespace PodcastIndexService

/-- Longest digit prefix. -/
def leadingDigits (cs : List Char) : List Char :=
  cs.takeWhile (fun c => c.isDigit)

/-- Decimal value of a digit list. -/
def digitsVal (cs : List Char) : Nat :=
  cs.foldl (fun n c => n * 10 + (c.toNat - ('0').toNat)) 0

/-- JavaScript `parseInt(s, 10)`: none models NaN. -/
def jsParseInt (s : String) : Option Int :=
  let cs := s.data.dropWhile (fun c => c.isWhitespace)
  let signed : Int × List Char :=
    match cs with
    | '-' :: rest => (-1, rest)
    | '+' :: rest => (1, rest)
    | _ => (1, cs)
  let ds := leadingDigits signed.2
  if ds = [] then none else some (signed.1 * digitsVal ds)

/-- The duration expression `parseInt(item.itunesDuration, 10) || null`
with a missing field parsing to NaN. -/
def jsDurationParse (d : Option String) : Option Int :=
  match d with
  | none => none
  | some s =>
    match jsParseInt s with
    | some n => if n = 0 then none else some n
    | none => none

/-- A feed `item` element, limited to the fields the episode mapping
reads. The enclosure is present or absent; when present it carries its
url attribute. -/
structure FeedItem where
  title : String := ""
  description : String := ""
  guid : String := ""
  enclosureUrl : Option String := none
  itunesDuration : Option String := none
  pubDate : String := ""
  deriving Repr, DecidableEq

structure Episode where
  title : String := ""
  description : String := ""
  guid : String := ""
  audioUrl : String := ""
  duration : Option Int := none
  pubDate : String := ""
  deriving Repr, DecidableEq

/-- The episode mapping of one feed item. -/
def mkEpisode (it : FeedItem) : Episode :=
  { title := it.title
    description := it.description
    guid := it.guid
    audioUrl := it.enclosureUrl.getD ("")
    duration := jsDurationParse it.itunesDuration
    pubDate := it.pubDate }

/-- Source: the episode extraction (podcast-index.service.ts lines 134
to 145): keep only items with an enclosure, then map each to an
episode. -/
def parseEpisodes (items : List FeedItem) : List Episode :=
  (items.filter (fun it => it.enclosureUrl.isSome)).map mkEpisode

end PodcastIndexService

/-!
Definitions that follow the wording of the specification, for
comparison against the code: the ranking key of section 4.5 item 1 and
the bit-exact cache key format of section 6. -/

/-- Following the spec words: the minimum priority among the item
sourceProviders, computed from the priority map (99 when the set is
empty). -/
def specMinPriority (pm : List (String × Nat)) (srcs : List String) :
    Nat :=
  (srcs.map (fun s => PodcastSearchManager.priorityOf pm s)).foldr min 99

/-- Following the spec words: the three-key compare of section 4.5,
whose first key is the minimum priority among the item
sourceProviders. -/
def specPodcastRankLE (pm : List (String × Nat))
    (a b : ProviderPodcastResult) : Bool :=
  PodcastSearchManager.key3LE
    (fun r => specMinPriority pm (r.sourceProviders.getD []))
    (fun r => r.popularity) (fun r => r.title) a b

/-- Following the spec words: the provider CSV sorted ascending, with
a missing or empty filter encoded as the word all. -/
def specProvidersCSV (providers : Option (List String)) : String :=
  match providers with
  | some ps =>
    if ps ≠ [] then
      String.intercalate (",")
        (List.insertionSort (fun a b => jsStrLE a b = true) ps)
    else ("all")
  | none => ("all")

/-- Following the spec words: the bit-exact radio cache key format of
section 6: namespace, query, the three filters, the limit, and the
sorted provider CSV, joined by colons, with no other component. -/
def specRadioCacheKeyFormat (query country language tag : String)
    (limit : Nat) (providers : Option (List String)) : String :=
  ("radio-search") ++ (":") ++ strOr query ("all") ++ (":") ++
    strOr country ("any") ++ (":") ++ strOr language ("any") ++ (":") ++
    strOr tag ("any") ++ (":") ++ toString limit ++ (":") ++
    specProvidersCSV providers

/-- Following the spec words: the bit-exact podcast cache key format of
section 6: namespace, query, the language filter, the limit, and the
sorted provider CSV, joined by colons. -/
def specPodcastCacheKeyFormat (query : String)
    (language : Option String) (limit : Nat)
    (providers : Option (List String)) : String :=
  ("podcasts:multi") ++ (":") ++ query ++ (":") ++
    strOr (language.getD ("")) ("any") ++ (":") ++ toString limit ++
    (":") ++ specProvidersCSV providers

/-- The radio cache key format as the code actually builds it: the
offset sits between the limit and the provider CSV, and the CSV keeps
the request order. -/
def amendedRadioCacheKeyFormat (query country language tag : String)
    (limit offset : Nat) (providers : Option (List String)) : String :=
  ("radio-search") ++ (":") ++ strOr query ("all") ++ (":") ++
    strOr country ("any") ++ (":") ++ strOr language ("any") ++ (":") ++
    strOr tag ("any") ++ (":") ++ toString limit ++ (":") ++
    toString offset ++ (":") ++
    (match providers with
     | some ps => strOr (String.intercalate (",") ps) ("all")
     | none => ("all"))

/-!
Concrete fixtures used by the counterexamples and witnesses below. -/

def c1Settled : List (String × Option (List ProviderPodcastResult)) :=
  [(("apple"),
    some [{ title := ("Alpha"), feedUrl := ("https://a"),
            source := ("apple") }]),
   (("taddy"),
    some [{ title := ("Beta"), feedUrl := ("https://b"),
            source := ("taddy") }])]

def c2StationA : ProviderRadioResult :=
  { name := ("BBC World"), streamUrl := ("http://x/stream"),
    votes := 10, clickCount := 3, source := ("radio_browser") }

def c2StationB : ProviderRadioResult :=
  { name := ("BBC WORLD SERVICE"), streamUrl := ("http://x/stream/"),
    votes := 5, clickCount := 4, source := ("radionet") }

def c2Target : ProviderPodcastResult :=
  { title := ("Alpha"), feedUrl := ("https://pop"),
    source := ("apple"), popularity := 5 }

def c2Incoming : ProviderPodcastResult :=
  { title := ("Alpha"), feedUrl := ("https://pop"),
    source := ("podcast_index"), popularity := 7 }

def c3FeedA : ProviderPodcastResult :=
  { title := ("Daily"), feedUrl := ("https://feed.example/rss"),
    source := ("apple") }

def c3FeedB : ProviderPodcastResult :=
  { title := ("daily"), feedUrl := ("HTTPS://FEED.EXAMPLE/RSS"),
    source := ("podcast_index") }

def c3First : ProviderPodcastResult :=
  { title := ("Alpha"), feedUrl := ("https://f"), itunesId := ("42"),
    source := ("apple") }

def c3Second : ProviderPodcastResult :=
  { title := ("Beta"), itunesId := ("42"),
    source := ("podcast_index") }

def c5Pm : List (String × Nat) := [(("apple"), 1), (("taddy"), 2)]

def c5HighPop : ProviderPodcastResult :=
  { title := ("x"), source := ("taddy"),
    sourceProviders := some [("apple"), ("taddy")], popularity := 100 }

def c5LowPop : ProviderPodcastResult :=
  { title := ("y"), source := ("apple"),
    sourceProviders := some [("apple")], popularity := 0 }

def c6Settled : List (String × Option (List ProviderPodcastResult)) :=
  [(("apple"),
    some [{ title := ("T"), feedUrl := ("https://t"),
            source := ("apple") }])]

def c6OutItem : ProviderPodcastResult :=
  { title := ("T"), feedUrl := ("https://t"), source := ("apple"),
    sourceProviders := some [("apple")] }

def c6EmptySettled :
    List (String × Option (List ProviderPodcastResult)) :=
  [(("apple"),
    some [{ title := ("T"), feedUrl := ("https://t"),
            source := ("") }])]

def c8Cfg : PodcastIndexProvider.PIConfig :=
  { enabled := true, apiKey := ("k"), apiSecret := ("s"),
    rateLimit := 0, rateLimitPeriodSeconds := 0 }

def c9Target : ProviderPodcastResult :=
  { title := ("Alpha"), feedUrl := ("https://e"), source := ("apple"),
    explicit := some false }

def c9Incoming : ProviderPodcastResult :=
  { title := ("Alpha"), feedUrl := ("https://e"),
    source := ("podcast_index"), explicit := some true }

def c10Item : PodcastIndexService.FeedItem :=
  { title := ("Ep"), guid := ("g1"),
    enclosureUrl := some ("https://audio.example/e.mp3"),
    itunesDuration := some ("12:34") }

/-- Membership in `setFrom` is membership in the underlying list. -/
theorem mem_setFrom_foldl (xs acc : List String) (x : String) :
    x ∈ xs.foldl (fun acc x => if x ∈ acc then acc else acc ++ [x]) acc ↔
      x ∈ acc ∨ x ∈ xs := by
  induction xs generalizing acc with
  | nil => simp
  | cons y ys ih =>
    simp only [List.foldl_cons, ih]
    by_cases hy : y ∈ acc
    · simp [hy]
      constructor
      · rintro (h | h)
        · exact Or.inl h
        · exact Or.inr (Or.inr h)
      · rintro (h | h | h)
        · exact Or.inl h
        · exact Or.inl (h ▸ hy)
        · exact Or.inr h
    · simp [hy, List.mem_append]
      tauto

theorem mem_setFrom (xs : List String) (x : String) :
    x ∈ setFrom xs ↔ x ∈ xs := by
  unfold setFrom
  rw [mem_setFrom_foldl]
  simp

/-- Every value of `mapSet m k v` is a value of `m` or is `v`. -/
theorem mem_values_mapSet {α : Type} (m : List (String × α)) (k : String)
    (v : α) (x : α) (hx : x ∈ (mapSet m k v).map Prod.snd) :
    x ∈ m.map Prod.snd ∨ x = v := by
  unfold mapSet at hx
  split at hx
  · simp only [List.map_map, List.mem_map] at hx
    obtain ⟨p, hp, hpx⟩ := hx
    by_cases hk : p.1 = k
    · simp [Function.comp, hk] at hpx
      exact Or.inr hpx.symm
    · simp [Function.comp, hk] at hpx
      exact Or.inl (hpx ▸ List.mem_map_of_mem Prod.snd hp)
  · simp only [List.map_append, List.mem_append, List.map_cons,
      List.map_nil, List.mem_cons, List.not_mem_nil, or_false] at hx
    exact hx

theorem jsStrLEChars_total : ∀ (a b : List Char),
    (jsStrLEChars a b || jsStrLEChars b a) = true
  | [], b => by cases b <;> simp [jsStrLEChars]
  | a :: as, [] => by simp [jsStrLEChars]
  | a :: as, b :: bs => by
    by_cases h1 : a < b
    · simp [jsStrLEChars, h1]
    · by_cases h2 : b < a
      · simp [jsStrLEChars, h1, h2]
      · simp only [jsStrLEChars, if_neg h1, if_neg h2]
        exact jsStrLEChars_total as bs

theorem jsStrLEChars_trans : ∀ (a b c : List Char),
    jsStrLEChars a b = true → jsStrLEChars b c = true →
      jsStrLEChars a c = true
  | [], _, c => by intro _ _; cases c <;> simp [jsStrLEChars]
  | a :: as, [], c => by intro h1 _; simp [jsStrLEChars] at h1
  | a :: as, b :: bs, [] => by intro _ h2; simp [jsStrLEChars] at h2
  | a :: as, b :: bs, c :: cs => by
    intro h1 h2
    rcases lt_trichotomy a b with hab | hab | hab <;>
      rcases lt_trichotomy b c with hbc | hbc | hbc
    · simp [jsStrLEChars, lt_trans hab hbc]
    · subst hbc; simp [jsStrLEChars, hab]
    · simp [jsStrLEChars, lt_asymm hbc, hbc] at h2
    · subst hab; simp [jsStrLEChars, hbc]
    · subst hab; subst hbc
      simp only [jsStrLEChars, if_neg (lt_irrefl a)] at h1 h2 ⊢
      exact jsStrLEChars_trans as bs cs h1 h2
    · simp [jsStrLEChars, lt_asymm hbc, hbc] at h2
    · simp [jsStrLEChars, lt_asymm hab, hab] at h1
    · simp [jsStrLEChars, lt_asymm hab, hab] at h1
    · simp [jsStrLEChars, lt_asymm hab, hab] at h1

theorem jsStrLE_total (a b : String) :
    (jsStrLE a b || jsStrLE b a) = true :=
  jsStrLEChars_total a.data b.data

theorem jsStrLE_trans (a b c : String) (h1 : jsStrLE a b = true)
    (h2 : jsStrLE b c = true) : jsStrLE a c = true :=
  jsStrLEChars_trans a.data b.data c.data h1 h2

namespace PodcastSearchManager

theorem key3LE_eq_true_iff {α : Type} (f g : α → Nat) (t : α → String)
    (a b : α) :
    key3LE f g t a b = true ↔
      f a < f b ∨ (f a = f b ∧ g b < g a) ∨
        (f a = f b ∧ g a = g b ∧ jsStrLE (t a) (t b) = true) := by
  unfold key3LE
  by_cases h1 : f a = f b <;> by_cases h2 : g a = g b <;>
    simp [h1, h2]

theorem key3LE_total {α : Type} (f g : α → Nat) (t : α → String)
    (a b : α) : key3LE f g t a b || key3LE f g t b a := by
  rw [Bool.or_eq_true, key3LE_eq_true_iff, key3LE_eq_true_iff]
  rcases lt_trichotomy (f a) (f b) with hf | hf | hf
  · exact Or.inl (Or.inl hf)
  · rcases lt_trichotomy (g b) (g a) with hg | hg | hg
    · exact Or.inl (Or.inr (Or.inl ⟨hf, hg⟩))
    · rcases Bool.or_eq_true_iff.mp (jsStrLE_total (t a) (t b)) with
        ht | ht
      · exact Or.inl (Or.inr (Or.inr ⟨hf, hg.symm, ht⟩))
      · exact Or.inr (Or.inr (Or.inr ⟨hf.symm, hg, ht⟩))
    · exact Or.inr (Or.inr (Or.inl ⟨hf.symm, hg⟩))
  · exact Or.inr (Or.inl hf)

theorem key3LE_trans {α : Type} (f g : α → Nat) (t : α → String)
    (a b c : α) (hab : key3LE f g t a b = true)
    (hbc : key3LE f g t b c = true) : key3LE f g t a c = true := by
  rw [key3LE_eq_true_iff] at hab hbc ⊢
  rcases hab with hf | ⟨hf, hg⟩ | ⟨hf, hg, ht⟩ <;>
    rcases hbc with hf2 | ⟨hf2, hg2⟩ | ⟨hf2, hg2, ht2⟩
  · exact Or.inl (lt_trans hf hf2)
  · exact Or.inl (hf2 ▸ hf)
  · exact Or.inl (hf2 ▸ hf)
  · exact Or.inl (hf ▸ hf2)
  · exact Or.inr (Or.inl ⟨hf.trans hf2, lt_trans hg2 hg⟩)
  · exact Or.inr (Or.inl ⟨hf.trans hf2, hg2 ▸ hg⟩)
  · exact Or.inl (hf ▸ hf2)
  · exact Or.inr (Or.inl ⟨hf.trans hf2, hg ▸ hg2⟩)
  · exact Or.inr (Or.inr ⟨hf.trans hf2, hg.trans hg2,
      jsStrLE_trans _ _ _ ht ht2⟩)

theorem podcastSort_sorted (pm : List (String × Nat))
    (l : List ProviderPodcastResult) :
    List.Sorted (fun a b => podcastLE pm a b = true)
      (sortResultsByPriority pm l) := by
  letI : IsTotal ProviderPodcastResult
      (fun a b => podcastLE pm a b = true) :=
    ⟨fun a b => by
      have h := key3LE_total (fun r => priorityOf pm r.source)
        (fun r => r.popularity) (fun r => r.title) a b
      rcases Bool.or_eq_true_iff.mp h with h | h
      · exact Or.inl h
      · exact Or.inr h⟩
  letI : IsTrans ProviderPodcastResult
      (fun a b => podcastLE pm a b = true) :=
    ⟨fun a b c hab hbc => by
      unfold podcastLE at hab hbc ⊢
      exact key3LE_trans _ _ _ a b c hab hbc⟩
  exact List.sorted_insertionSort _ l

theorem podcastSort_perm (pm : List (String × Nat))
    (l : List ProviderPodcastResult) :
    (sortResultsByPriority pm l).Perm l :=
  List.perm_insertionSort _ l

end PodcastSearchManager

namespace RadioSearchManager

theorem radioSort_sorted (pm : List (String × Nat))
    (l : List ProviderRadioResult) :
    List.Sorted (fun a b => radioLE pm a b = true)
      (sortResultsByPriority pm l) := by
  letI : IsTotal ProviderRadioResult
      (fun a b => radioLE pm a b = true) :=
    ⟨fun a b => by
      have h := PodcastSearchManager.key3LE_total
        (fun r => PodcastSearchManager.priorityOf pm r.source)
        (fun r => r.votes + r.clickCount) (fun r => r.name) a b
      rcases Bool.or_eq_true_iff.mp h with h | h
      · exact Or.inl h
      · exact Or.inr h⟩
  letI : IsTrans ProviderRadioResult
      (fun a b => radioLE pm a b = true) :=
    ⟨fun a b c hab hbc => by
      unfold radioLE at hab hbc ⊢
      exact PodcastSearchManager.key3LE_trans _ _ _ a b c hab hbc⟩
  exact List.sorted_insertionSort _ l

theorem radioSort_perm (pm : List (String × Nat))
    (l : List ProviderRadioResult) :
    (sortResultsByPriority pm l).Perm l :=
  List.perm_insertionSort _ l

end RadioSearchManager

/-!
Helper lemmas about the two dedup loops: the behaviour on a colliding
pair, and the provenance invariant every stored value satisfies. -/

theorem podcast_dedupStep_nil (a : ProviderPodcastResult)
    (h1 : jsToLower a.feedUrl ≠ "") :
    PodcastSearchManager.dedupStep [] a =
      [(jsToLower a.feedUrl,
        PodcastSearchManager.stampSourceProviders a)] := by
  cases hfb : PodcastSearchManager.normalizeTitleAuthor a.title
      a.authorName <;>
    simp [PodcastSearchManager.dedupStep, mapGet, mapSet, h1, hfb]

/-- A pair of candidates with the same nonempty lowercased feed URL is
merged by the dedup loop into the single stamped-then-merged record. -/
theorem podcast_dedup_pair (a b : ProviderPodcastResult)
    (h1 : jsToLower a.feedUrl ≠ "")
    (h2 : jsToLower b.feedUrl = jsToLower a.feedUrl) :
    PodcastSearchManager.deduplicateResults [a, b] =
      [PodcastSearchManager.mergePodcast
        (PodcastSearchManager.stampSourceProviders a) b] := by
  unfold PodcastSearchManager.deduplicateResults
  rw [List.foldl_cons, List.foldl_cons, List.foldl_nil,
    podcast_dedupStep_nil a h1]
  unfold PodcastSearchManager.dedupStep
  simp [mapGet, mapSet, h1, h2]

theorem radio_dedupStep_nil (a : ProviderRadioResult)
    (ha : a.streamUrl ≠ "") :
    RadioSearchManager.dedupStep [] a =
      [(RadioSearchManager.normalizeStreamUrl a.streamUrl,
        RadioSearchManager.stampSourceProviders a)] := by
  simp [RadioSearchManager.dedupStep, mapGet, mapSet, ha]

/-- A pair of stations with nonempty stream URLs normalizing to the
same key is merged by the dedup loop into the single
stamped-then-merged record. -/
theorem radio_dedup_pair (a b : ProviderRadioResult)
    (ha : a.streamUrl ≠ "") (hb : b.streamUrl ≠ "")
    (hk : RadioSearchManager.normalizeStreamUrl b.streamUrl =
      RadioSearchManager.normalizeStreamUrl a.streamUrl) :
    RadioSearchManager.deduplicateResults [a, b] =
      [RadioSearchManager.mergeStation
        (RadioSearchManager.stampSourceProviders a) b] := by
  unfold RadioSearchManager.deduplicateResults
  rw [List.foldl_cons, List.foldl_cons, List.foldl_nil,
    radio_dedupStep_nil a ha]
  simp [RadioSearchManager.dedupStep, mapGet, mapSet, ha, hb, hk]

theorem mapGet_mem_values {α : Type} (m : List (String × α))
    (k : String) (v : α) (h : mapGet m k = some v) :
    v ∈ m.map Prod.snd := by
  unfold mapGet at h
  cases hf : m.find? (fun p => p.1 = k) with
  | none => rw [hf] at h; simp at h
  | some p =>
    rw [hf] at h
    simp at h
    exact h ▸ List.mem_map_of_mem Prod.snd (List.mem_of_find?_eq_some hf)

theorem mem_values_of_if_get {α : Type} {m : List (String × α)}
    {k : String} {c : Prop} [Decidable c] {ex : α}
    (h : (if c then mapGet m k else none) = some ex) :
    ex ∈ m.map Prod.snd := by
  split at h
  · exact mapGet_mem_values _ _ _ h
  · simp at h

theorem or_eq_some_cases {α : Type} {a b : Option α} {x : α}
    (h : a.or b = some x) :
    a = some x ∨ (a = none ∧ b = some x) := by
  cases a <;> simp_all [Option.or]

theorem mem_values_of_match_get {α : Type} {m : List (String × α)}
    {o : Option String} {ex : α}
    (h : (match o with | some k => mapGet m k | none => none) =
      some ex) : ex ∈ m.map Prod.snd := by
  cases o with
  | some k => exact mapGet_mem_values _ _ _ h
  | none => simp at h

/-- Every value stored by one podcast dedup step is an old value, a
merge of an old value with the incoming item, or the stamped incoming
item. -/
theorem podcast_dedupStep_values
    (m : List (String × ProviderPodcastResult))
    (item : ProviderPodcastResult) (v : ProviderPodcastResult)
    (hv : v ∈ (PodcastSearchManager.dedupStep m item).map Prod.snd) :
    v ∈ m.map Prod.snd ∨
      (∃ ex ∈ m.map Prod.snd,
        v = PodcastSearchManager.mergePodcast ex item) ∨
      v = PodcastSearchManager.stampSourceProviders item := by
  unfold PodcastSearchManager.dedupStep at hv
  dsimp only at hv
  split at hv
  next ex heq =>
    rcases mem_values_mapSet _ _ _ _ hv with h | rfl
    · exact Or.inl h
    · refine Or.inr (Or.inl ⟨ex, ?_, rfl⟩)
      rcases or_eq_some_cases heq with h1 | ⟨_, h23⟩
      · exact mem_values_of_if_get h1
      · rcases or_eq_some_cases h23 with h2 | ⟨_, h3⟩
        · exact mem_values_of_if_get h2
        · exact mem_values_of_match_get h3
  next heq =>
    rcases mem_values_mapSet _ _ _ _ hv with h | rfl
    · exact Or.inl h
    · exact Or.inr (Or.inr rfl)

/-- Every value stored by one radio dedup step is an old value, a merge
of an old value with the incoming item, or the stamped incoming item. -/
theorem radio_dedupStep_values
    (m : List (String × ProviderRadioResult))
    (item : ProviderRadioResult) (v : ProviderRadioResult)
    (hv : v ∈ (RadioSearchManager.dedupStep m item).map Prod.snd) :
    v ∈ m.map Prod.snd ∨
      (∃ ex ∈ m.map Prod.snd,
        v = RadioSearchManager.mergeStation ex item) ∨
      v = RadioSearchManager.stampSourceProviders item := by
  unfold RadioSearchManager.dedupStep at hv
  split at hv
  · exact Or.inl hv
  · dsimp only at hv
    split at hv
    next ex heq =>
      rcases mem_values_mapSet _ _ _ _ hv with h | rfl
      · exact Or.inl h
      · exact Or.inr (Or.inl ⟨ex, mapGet_mem_values _ _ _ heq, rfl⟩)
    next heq =>
      rcases mem_values_mapSet _ _ _ _ hv with h | rfl
      · exact Or.inl h
      · exact Or.inr (Or.inr rfl)

theorem podcast_merge_source_ok (ex item : ProviderPodcastResult)
    (h : ex.source ∈ ex.sourceProviders.getD []) :
    (PodcastSearchManager.mergePodcast ex item).source ∈
      (PodcastSearchManager.mergePodcast ex item).sourceProviders.getD
        [] := by
  show ex.source ∈ setFrom _
  rw [mem_setFrom]
  exact List.mem_append_left _ (List.mem_append_left _ h)

theorem podcast_stamp_source_ok (item : ProviderPodcastResult) :
    (PodcastSearchManager.stampSourceProviders item).source ∈
      (PodcastSearchManager.stampSourceProviders
        item).sourceProviders.getD [] := by
  show item.source ∈ setFrom _
  rw [mem_setFrom]
  exact List.mem_append_right _ (List.mem_singleton_self _)

theorem radio_merge_source_ok (ex item : ProviderRadioResult)
    (h : ex.source ∈ ex.sourceProviders.getD []) :
    (RadioSearchManager.mergeStation ex item).source ∈
      (RadioSearchManager.mergeStation ex item).sourceProviders.getD
        [] := by
  show ex.source ∈ setFrom _
  rw [mem_setFrom]
  exact List.mem_append_left _ (List.mem_append_left _ h)

theorem radio_stamp_source_ok (item : ProviderRadioResult) :
    (RadioSearchManager.stampSourceProviders item).source ∈
      (RadioSearchManager.stampSourceProviders
        item).sourceProviders.getD [] := by
  show item.source ∈ setFrom _
  rw [mem_setFrom]
  exact List.mem_append_right _ (List.mem_singleton_self _)

/-- The provenance invariant holds for every value of the podcast dedup
fold, whatever the incoming list. -/
theorem podcast_dedup_fold_ok (l : List ProviderPodcastResult)
    (m : List (String × ProviderPodcastResult))
    (hm : ∀ v ∈ m.map Prod.snd, v.source ∈ v.sourceProviders.getD []) :
    ∀ v ∈ (l.foldl PodcastSearchManager.dedupStep m).map Prod.snd,
      v.source ∈ v.sourceProviders.getD [] := by
  induction l generalizing m with
  | nil => exact hm
  | cons x xs ih =>
    rw [List.foldl_cons]
    apply ih
    intro v hv
    rcases podcast_dedupStep_values m x v hv with h | ⟨ex, hex, rfl⟩ | rfl
    · exact hm v h
    · exact podcast_merge_source_ok ex x (hm ex hex)
    · exact podcast_stamp_source_ok x

/-- The provenance invariant holds for every value of the radio dedup
fold, whatever the incoming list. -/
theorem radio_dedup_fold_ok (l : List ProviderRadioResult)
    (m : List (String × ProviderRadioResult))
    (hm : ∀ v ∈ m.map Prod.snd, v.source ∈ v.sourceProviders.getD []) :
    ∀ v ∈ (l.foldl RadioSearchManager.dedupStep m).map Prod.snd,
      v.source ∈ v.sourceProviders.getD [] := by
  induction l generalizing m with
  | nil => exact hm
  | cons x xs ih =>
    rw [List.foldl_cons]
    apply ih
    intro v hv
    rcases radio_dedupStep_values m x v hv with h | ⟨ex, hex, rfl⟩ | rfl
    · exact hm v h
    · exact radio_merge_source_ok ex x (hm ex hex)
    · exact radio_stamp_source_ok x

/-!
Claim theorems. -/

/-- C1 counterexample: at a request with limit 1 whose providers return
two distinct podcasts, the podcast search returns both items: the
output length is not the minimum of the limit and the merged count,
because the podcast manager never truncates. -/
theorem C1_counterexample :
    (PodcastSearchManager.searchPipeline [] 1 c1Settled).length = 2 ∧
    (PodcastSearchManager.deduplicateResults
      (PodcastSearchManager.collectResults c1Settled)).length = 2 ∧
    (PodcastSearchManager.searchPipeline [] 1 c1Settled).length ≠
      min 1 (PodcastSearchManager.deduplicateResults
        (PodcastSearchManager.collectResults c1Settled)).length := by
  decide

/-- C1 amended: the radio search truncates its ranked output to the
bounded limit, so its length is the minimum of the limit and the merged
count; the podcast search applies no truncation and returns exactly the
merged count. -/
theorem C1_amended (pm : List (String × Nat)) (lim : Nat)
    (rs : List (String × Option (List ProviderRadioResult)))
    (ps : List (String × Option (List ProviderPodcastResult))) :
    (RadioSearchManager.searchPipeline pm lim rs).length =
      min lim (RadioSearchManager.deduplicateResults
        (RadioSearchManager.collectResults rs)).length ∧
    (PodcastSearchManager.searchPipeline pm lim ps).length =
      (PodcastSearchManager.deduplicateResults
        (PodcastSearchManager.collectResults ps)).length := by
  constructor
  · unfold RadioSearchManager.searchPipeline
    rw [List.length_take,
      (RadioSearchManager.radioSort_perm pm _).length_eq]
  · exact (PodcastSearchManager.podcastSort_perm pm _).length_eq

/-- C2 counterexample: two podcast duplicates with popularity 5 and 7
merge to popularity 5, not to the sum 12: the merge keeps the first
nonzero value instead of summing. -/
theorem C2_counterexample :
    c2Target.popularity = 5 ∧ c2Incoming.popularity = 7 ∧
    (PodcastSearchManager.deduplicateResults [c2Target, c2Incoming]).map
      (fun r => r.popularity) = [5] ∧
    [(5 : Nat)] ≠ [c2Target.popularity + c2Incoming.popularity] := by
  decide

/-- C2 amended: when two stations collide on the stream key, the merged
votes and clickCount are the sums of the two items; when two podcasts
collide on the feed key, the merged popularity is the existing value
when nonzero and the incoming value otherwise, not the sum. -/
theorem C2_amended (a b : ProviderRadioResult)
    (c d : ProviderPodcastResult)
    (ha : a.streamUrl ≠ "") (hb : b.streamUrl ≠ "")
    (hk : RadioSearchManager.normalizeStreamUrl b.streamUrl =
      RadioSearchManager.normalizeStreamUrl a.streamUrl)
    (hc : jsToLower c.feedUrl ≠ "")
    (hd : jsToLower d.feedUrl = jsToLower c.feedUrl) :
    ((RadioSearchManager.deduplicateResults [a, b]).map
      (fun r => (r.votes, r.clickCount)) =
        [(a.votes + b.votes, a.clickCount + b.clickCount)]) ∧
    ((PodcastSearchManager.deduplicateResults [c, d]).map
      (fun r => r.popularity) = [natOr c.popularity d.popularity]) := by
  constructor
  · rw [radio_dedup_pair a b ha hb hk]
    rfl
  · rw [podcast_dedup_pair c d hc hd]
    rfl

/-- C2 witness: the amended claim evaluated on the concrete spec
scenario pair (votes 10 and 5, clicks 3 and 4) and on the concrete
podcast pair (popularity 5 and 7). -/
theorem C2_witness :
    ((RadioSearchManager.deduplicateResults [c2StationA, c2StationB]).map
      (fun r => (r.votes, r.clickCount)) = [(15, 7)]) ∧
    ((PodcastSearchManager.deduplicateResults [c2Target, c2Incoming]).map
      (fun r => r.popularity) = [5]) := by
  have h := C2_amended c2StationA c2StationB c2Target c2Incoming
    (by decide) (by decide) (by decide) (by decide) (by decide)
  exact ⟨h.1.trans (by decide), h.2.trans (by decide)⟩

/-- C3 counterexample: two podcast candidates that agree on a nonempty
iTunes id are not merged when the first one also carries a feed URL:
both survive into the output, which therefore contains two distinct
items with the same identity key. -/
theorem C3_counterexample :
    c3First.itunesId = c3Second.itunesId ∧ c3First.itunesId ≠ ("") ∧
    (PodcastSearchManager.deduplicateResults [c3First, c3Second]).length
      = 2 ∧
    (PodcastSearchManager.deduplicateResults [c3First, c3Second]).map
      (fun r => r.itunesId) = [("42"), ("42")] := by
  decide

/-- C3 amended: each candidate is stored under its first present key
only (lowercased feed URL, else iTunes id, else normalized
title-author), so two candidates that agree on a nonempty lowercased
feed URL are merged into the single stamped-then-merged item; candidates
that agree only on a key that is not the stored one are not merged, and
the output may contain distinct items sharing an identity key. -/
theorem C3_amended (a b : ProviderPodcastResult)
    (h1 : jsToLower a.feedUrl ≠ "")
    (h2 : jsToLower b.feedUrl = jsToLower a.feedUrl) :
    PodcastSearchManager.deduplicateResults [a, b] =
      [PodcastSearchManager.mergePodcast
        (PodcastSearchManager.stampSourceProviders a) b] ∧
    (PodcastSearchManager.deduplicateResults [a, b]).length = 1 := by
  refine ⟨podcast_dedup_pair a b h1 h2, ?_⟩
  rw [podcast_dedup_pair a b h1 h2]
  rfl

/-- C3 witness: the amended claim evaluated on two candidates whose
feed URLs differ only in case. -/
theorem C3_witness :
    (PodcastSearchManager.deduplicateResults [c3FeedA, c3FeedB]).length
      = 1 :=
  (C3_amended c3FeedA c3FeedB (by decide) (by decide)).2

/-- C4: the rate limiter window is not anchored once per window. With
quota 2 per 60 seconds, requests recorded at 0 ms and 30000 ms leave
the counter at 2 with an expiry postponed to 90000 ms, because every
write re-sets the full-period TTL; the first admit at 60000 ms (the
instant window-start plus window-duration of the window anchored at 0)
observes the count 2 instead of a reset to zero and is denied. -/
theorem C4_window_never_rolls :
    (RateLimiterService.recordRequest
      (RateLimiterService.recordRequest none 0 2 60) 30000 2 60) =
        some ⟨2, 90000⟩ ∧
    RateLimiterService.rlGet
      (RateLimiterService.recordRequest
        (RateLimiterService.recordRequest none 0 2 60) 30000 2 60)
      60000 = some 2 ∧
    (RateLimiterService.canMakeRequest
      (RateLimiterService.recordRequest
        (RateLimiterService.recordRequest none 0 2 60) 30000 2 60)
      60000 2 60).1 = false := by
  decide

/-- C5 counterexample: with providers apple (priority 1) and taddy
(priority 2), an item surviving with source taddy but contributed to by
apple as well ranks after an apple item, although the minimum priority
over its sourceProviders ties at 1 and its popularity 100 should then
put it first under the claimed compare: the output is not ordered by
the minimum priority among sourceProviders. -/
theorem C5_counterexample :
    (PodcastSearchManager.sortResultsByPriority c5Pm
      [c5HighPop, c5LowPop]).map (fun r => r.title) = [("y"), ("x")] ∧
    specPodcastRankLE c5Pm c5HighPop c5LowPop = true ∧
    specPodcastRankLE c5Pm c5LowPop c5HighPop = false := by
  decide

/-- C5 amended: both rankers order by the three-key compare whose first
key is the priority of the item surviving source (not the minimum over
sourceProviders; a missing or zero priority reads as 99), then
popularity descending (votes plus clicks for stations), then display
name ascending; the result is a permutation of the input, produced by a
stable sort. -/
theorem C5_amended (pm : List (String × Nat))
    (rl : List ProviderRadioResult)
    (pl : List ProviderPodcastResult) :
    (List.Sorted (fun a b => RadioSearchManager.radioLE pm a b = true)
        (RadioSearchManager.sortResultsByPriority pm rl) ∧
      (RadioSearchManager.sortResultsByPriority pm rl).Perm rl) ∧
    (List.Sorted
        (fun a b => PodcastSearchManager.podcastLE pm a b = true)
        (PodcastSearchManager.sortResultsByPriority pm pl) ∧
      (PodcastSearchManager.sortResultsByPriority pm pl).Perm pl) :=
  ⟨⟨RadioSearchManager.radioSort_sorted pm rl,
    RadioSearchManager.radioSort_perm pm rl⟩,
   ⟨PodcastSearchManager.podcastSort_sorted pm pl,
    PodcastSearchManager.podcastSort_perm pm pl⟩⟩

/-- C6 counterexample: an adapter item with an empty source passes
through the pipeline unchanged: the output can contain an item whose
source is the empty string, so the non-empty-source part of the claim
fails. -/
theorem C6_counterexample :
    ¬ (∀ r ∈ PodcastSearchManager.searchPipeline [] 20 c6EmptySettled,
        r.source ≠ ("")) := by
  decide

/-- C6 amended: every item returned by either search pipeline carries
its source inside its sourceProviders set, whatever the provider
adapters emitted, and this membership is preserved by every dedupe
merge; the source itself is not forced to be non-empty. -/
theorem C6_amended (pm : List (String × Nat)) (lim : Nat)
    (rs : List (String × Option (List ProviderRadioResult)))
    (ps : List (String × Option (List ProviderPodcastResult))) :
    (∀ r ∈ RadioSearchManager.searchPipeline pm lim rs,
      r.source ∈ r.sourceProviders.getD []) ∧
    (∀ p ∈ PodcastSearchManager.searchPipeline pm lim ps,
      p.source ∈ p.sourceProviders.getD []) := by
  constructor
  · intro r hr
    have hr2 : r ∈ RadioSearchManager.sortResultsByPriority pm
        (RadioSearchManager.deduplicateResults
          (RadioSearchManager.collectResults rs)) :=
      List.mem_of_mem_take hr
    have hr3 :=
      (RadioSearchManager.radioSort_perm pm _).mem_iff.mp hr2
    exact radio_dedup_fold_ok _ [] (by simp) r hr3
  · intro p hp
    have hp3 :=
      (PodcastSearchManager.podcastSort_perm pm _).mem_iff.mp hp
    exact podcast_dedup_fold_ok _ [] (by simp) p hp3

/-- C6 witness: the amended claim evaluated on a one-provider input
whose single output item is known explicitly. -/
theorem C6_witness :
    c6OutItem.source ∈ c6OutItem.sourceProviders.getD [] :=
  (C6_amended [] 20 [] c6Settled).2 c6OutItem (by decide)

/-- C7 counterexample: at query q, no filters, limit 20, offset 0 and
requested providers b then a, the radio cache key carries the offset
between the limit and the provider CSV and keeps the CSV unsorted, so
it differs from the bit-exact format the claim states. -/
theorem C7_counterexample :
    RadioSearchManager.buildCacheKey ("q") ("") ("") ("") 20 0
        (some [("b"), ("a")]) =
      ("radio-search:q:any:any:any:20:0:b,a") ∧
    specRadioCacheKeyFormat ("q") ("") ("") ("") 20
        (some [("b"), ("a")]) =
      ("radio-search:q:any:any:any:20:a,b") ∧
    RadioSearchManager.buildCacheKey ("q") ("") ("") ("") 20 0
        (some [("b"), ("a")]) ≠
      specRadioCacheKeyFormat ("q") ("") ("") ("") 20
        (some [("b"), ("a")]) := by
  decide

/-- C7 amended: the podcast cache key is the bit-exact claimed string
(namespace podcasts:multi, query, language or any, limit, provider CSV
sorted ascending or all); the radio cache key follows the claimed shape
except that the offset is inserted between the limit and the CSV and
the provider CSV keeps the request order instead of being sorted. -/
theorem C7_amended (query country language tag : String)
    (limit offset : Nat) (providers : Option (List String))
    (q2 : String) (lang2 : Option String) (lim2 : Nat)
    (prov2 : Option (List String)) :
    RadioSearchManager.buildCacheKey query country language tag limit
        offset providers =
      amendedRadioCacheKeyFormat query country language tag limit
        offset providers ∧
    PodcastSearchManager.buildCacheKey q2 lang2 lim2 prov2 =
      specPodcastCacheKeyFormat q2 lang2 lim2 prov2 := by
  constructor
  · rfl
  · rfl

/-- C8 counterexample: with credentials present and no quota, a search
whose upstream request throws has issued a request but recorded zero
rate-limit units, not one: usage is recorded only after a response is
received. -/
theorem C8_counterexample :
    (PodcastIndexProvider.search c8Cfg ("q") none 0
      PodcastIndexProvider.HttpOutcome.err).requestIssued = true ∧
    (PodcastIndexProvider.search c8Cfg ("q") none 0
      PodcastIndexProvider.HttpOutcome.err).recordedUnits = 0 ∧
    (PodcastIndexProvider.search c8Cfg ("q") none 0
      PodcastIndexProvider.HttpOutcome.err).recordedUnits ≠ 1 := by
  decide

/-- C8 amended: the adapter issues an upstream request exactly when it
is enabled, the query is nonempty, both credentials are present and
admission is granted; it records exactly one rate-limit unit when the
issued request yields a response, and records nothing when the request
throws or when no request is issued (credentials absent or admission
denied). -/
theorem C8_amended (cfg : PodcastIndexProvider.PIConfig) (q : String)
    (st : RateLimiterService.RLState) (now : Nat)
    (http : PodcastIndexProvider.HttpOutcome) :
    (PodcastIndexProvider.search cfg q st now http).requestIssued =
      (cfg.enabled && !(q == ("")) && !(cfg.apiKey == ("")) &&
        !(cfg.apiSecret == ("")) &&
        (RateLimiterService.canMakeRequest st now cfg.rateLimit
          cfg.rateLimitPeriodSeconds).1) ∧
    (PodcastIndexProvider.search cfg q st now http).recordedUnits =
      (match http with
        | PodcastIndexProvider.HttpOutcome.ok _ =>
          if (PodcastIndexProvider.search cfg q st now
              http).requestIssued then 1 else 0
        | PodcastIndexProvider.HttpOutcome.err => 0) := by
  unfold PodcastIndexProvider.search
  by_cases h1 : cfg.enabled <;> by_cases h2 : q = ("") <;>
    by_cases h3 : cfg.apiKey = ("") <;>
      by_cases h4 : cfg.apiSecret = ("") <;>
        cases hadm : (RateLimiterService.canMakeRequest st now
          cfg.rateLimit cfg.rateLimitPeriodSeconds).1 <;>
          cases http <;> simp [h1, h2, h3, h4, hadm]

/-- C9 counterexample: a known-explicit-false target merged with a
known-explicit-true incoming duplicate yields explicit false, not the
claimed logical OR true. -/
theorem C9_counterexample :
    c9Target.explicit = some false ∧
    c9Incoming.explicit = some true ∧
    (PodcastSearchManager.deduplicateResults [c9Target, c9Incoming]).map
      (fun r => r.explicit) = [some false] ∧
    (PodcastSearchManager.deduplicateResults [c9Target, c9Incoming]).map
      (fun r => r.explicit) ≠ [some true] := by
  decide

/-- C9 amended: the merged explicit flag is the nullish coalescing of
the two values: the target value when it is known, otherwise the
incoming value; when both are known and disagree the target value wins
(the merge never ORs the two flags). -/
theorem C9_amended (a b : ProviderPodcastResult)
    (h1 : jsToLower a.feedUrl ≠ "")
    (h2 : jsToLower b.feedUrl = jsToLower a.feedUrl) :
    (PodcastSearchManager.deduplicateResults [a, b]).map
      (fun r => r.explicit) =
      [match a.explicit with
        | some v => some v
        | none => b.explicit] := by
  rw [podcast_dedup_pair a b h1 h2]
  show [a.explicit.or b.explicit] = _
  cases a.explicit <;> rfl

/-- C9 witness: the amended claim evaluated on the concrete
false-true pair. -/
theorem C9_witness :
    (PodcastSearchManager.deduplicateResults [c9Target, c9Incoming]).map
      (fun r => r.explicit) = [some false] :=
  (C9_amended c9Target c9Incoming (by decide) (by decide)).trans
    (by decide)

/-- C10 counterexample: a feed item with an enclosure and duration
string 12:34 yields an episode with duration 12 (the leading integer),
not the 754 seconds the claim states for an MM:SS string. -/
theorem C10_counterexample :
    (PodcastIndexService.parseEpisodes [c10Item]).map
      (fun e => e.duration) = [some 12] ∧
    (PodcastIndexService.parseEpisodes [c10Item]).map
      (fun e => e.duration) ≠ [some (12 * 60 + 34)] := by
  decide

/-- C10 amended: items without an enclosure are skipped and every item
with one yields an episode whose duration is the JavaScript
parseInt-or-null of the duration field: the full value for a plain
positive seconds integer, only the leading component for colon-separated
strings, and null (without dropping the episode) for unparseable, zero
or missing fields. -/
theorem C10_amended (items : List PodcastIndexService.FeedItem)
    (it : PodcastIndexService.FeedItem) :
    (PodcastIndexService.parseEpisodes items).length =
      items.countP (fun i => i.enclosureUrl.isSome) ∧
    (PodcastIndexService.parseEpisodes [it]).map (fun e => e.duration) =
      (if it.enclosureUrl.isSome then
        [PodcastIndexService.jsDurationParse it.itunesDuration]
      else []) ∧
    PodcastIndexService.jsDurationParse (some ("754")) = some 754 ∧
    PodcastIndexService.jsDurationParse (some ("12:34")) = some 12 ∧
    PodcastIndexService.jsDurationParse (some ("1:02:03")) = some 1 ∧
    PodcastIndexService.jsDurationParse (some ("abc")) = none ∧
    PodcastIndexService.jsDurationParse (some ("0")) = none ∧
    PodcastIndexService.jsDurationParse none = none := by
  refine ⟨?_, ?_, by decide, by decide, by decide, by decide,
    by decide, rfl⟩
  · unfold PodcastIndexService.parseEpisodes
    rw [List.length_map, ← List.countP_eq_length_filter]
  · unfold PodcastIndexService.parseEpisodes
    cases h : it.enclosureUrl <;>
      simp [List.filter, h, PodcastIndexService.mkEpisode]

end GlobalRadios
